import Mathlib

/-!
# Verification of the WhatsApp session/chat/message persistence core

Shallow embedding of the session lifecycle controller, synchronization
engine and persistence/dedup layer of the `records_ws_ms` microservice.

The embedded code is the current generation of the service:
* `WhatsAppSessionSchema` and its `pre('save')` middleware
  (`src/rabbit.service.ts`, schema part),
* `WhatsappWebService` (the version bundled in
  `src/whatsapp-web/dto/update-whatsapp-web.dto.ts`, which is the one whose
  call signatures match the current storage service),
* `WhatsappStorageService` (the version with the progress callbacks and the
  `$push`-based chat deletion history, bundled in `src/unnamed/part_004`).

Mongo collections are embedded as lists of records; `updateOne`/`findOne`
act on the first record matching the key (keys are unique in all three
collections).  A crucial point of the embedding, faithful to Mongoose
semantics: document middleware registered with `schema.pre('save')` runs on
`document.save()`/`Model.create()` only — it does NOT run on
`Model.updateOne(...)`, which is a query-path write.  The session schema
registers its QR-attempt/auto-close logic as `pre('save')` middleware, while
every status write in the service goes through `updateOne`; both paths are
embedded separately below.
-/

namespace RecordsWs

/-- Unix-style timestamps (`Date` values) are abstracted as naturals. -/
abbrev Timestamp := Nat

/-- The `status` enum of `WhatsAppSessionSchema`. -/
inductive SessionStatus where
  | initializing
  | qr_generated
  | authenticated
  | ready
  | disconnected
  | closed
  | auth_failure
  | error
deriving DecidableEq, Repr

/-- Modelled from the spec: `AppConstants.MAX_QR_ATTEMPTS`
(`src/constants/app.constants` is not part of the snapshot; the schema only
requires the default to be ≥ 1, and no claim depends on the exact value). -/
def MAX_QR_ATTEMPTS : Nat := 3

/-- A `WhatsAppSession` document (fields declared in the schema; `sessionData`,
`refId` and `disconnectedAt` are never read by the embedded operations and are
omitted). -/
structure SessionRecord where
  sessionId : String
  status : SessionStatus
  lastSeen : Timestamp
  qrAttempts : Nat
  maxQrAttempts : Nat
  closedAt : Option Timestamp
  isDisconnected : Bool
deriving DecidableEq, Repr

/-- Schema defaults applied when a document is created for a session id
(status `initializing`, `qrAttempts` 0, `maxQrAttempts` the constant,
`isDisconnected` false). -/
def defaultSessionRecord (sessionId : String) (now : Timestamp) : SessionRecord :=
  { sessionId := sessionId
    status := .initializing
    lastSeen := now
    qrAttempts := 0
    maxQrAttempts := MAX_QR_ATTEMPTS
    closedAt := none
    isDisconnected := false }

/-- The `WhatsAppSessionSchema.pre('save')` document middleware:
refresh `lastSeen`; on a modified status equal to `qr_generated` increment
`qrAttempts`; on a modified status equal to `authenticated`/`ready` reset
`qrAttempts`; force `closed` once `qrAttempts ≥ maxQrAttempts`; keep
`isDisconnected` in sync with a modified status.  `statusModified` embeds
`this.isModified('status')`. -/
def preSave (now : Timestamp) (statusModified : Bool) (doc : SessionRecord) :
    SessionRecord :=
  let d1 := { doc with lastSeen := now }
  let d2 :=
    if statusModified ∧ d1.status = .qr_generated then
      { d1 with qrAttempts := d1.qrAttempts + 1 }
    else d1
  let d3 :=
    if statusModified ∧ (d2.status = .authenticated ∨ d2.status = .ready) then
      { d2 with qrAttempts := 0 }
    else d2
  let d4 :=
    if d3.qrAttempts ≥ d3.maxQrAttempts ∧ d3.status ≠ .closed then
      { d3 with status := .closed, closedAt := some (d3.closedAt.getD now) }
    else d3
  if statusModified then
    { d4 with isDisconnected := d4.status = .disconnected }
  else d4

/-- The `$set` payload of `storeSessionMetadata` (the metadata fields actually
reaching the document: `qrCode` and `title` are not declared in the session
schema, so Mongoose strict mode strips them from the update). -/
structure SessionMetadata where
  status : Option SessionStatus
  lastSeen : Option Timestamp
deriving DecidableEq, Repr

/-- Apply a `$set` of the metadata fields to a session document. -/
def applySet (m : SessionMetadata) (r : SessionRecord) : SessionRecord :=
  { r with
    status := m.status.getD r.status
    lastSeen := m.lastSeen.getD r.lastSeen }

/-- Embeds `Model.findOne({ sessionId })`: first document with the given id. -/
def findSession (recs : List SessionRecord) (sid : String) : Option SessionRecord :=
  recs.find? (fun r => r.sessionId == sid)

/-- Embeds `WhatsappWebService.storeSessionMetadata`: an
`updateOne({sessionId}, {$set: {...}}, {upsert: true})`.  Being a query-path
write, it does not run the `pre('save')` document middleware — neither on
update nor on upsert-insert (the inserted document gets the schema defaults
plus the `$set` fields). -/
def storeSessionMetadata (recs : List SessionRecord) (sid : String)
    (now : Timestamp) (m : SessionMetadata) : List SessionRecord :=
  match recs with
  | [] => [applySet m (defaultSessionRecord sid now)]
  | r :: rs =>
    if r.sessionId == sid then applySet m r :: rs
    else r :: storeSessionMetadata rs sid now m

/-- Embeds `updateOne({ sessionId }, { $set: ... })` without upsert: rewrite the first
matching document, leave the store unchanged when nothing matches. -/
def updateSessionSet (recs : List SessionRecord) (sid : String)
    (f : SessionRecord → SessionRecord) : List SessionRecord :=
  match recs with
  | [] => []
  | r :: rs =>
    if r.sessionId == sid then f r :: rs
    else r :: updateSessionSet rs sid f

/-- An in-memory registry entry:
`{ client, isReady, lastRestore, isRestoring }` (the `client` reference and
`lastRestore` timestamp carry no observable state and are omitted). -/
structure Handle where
  isReady : Bool
  isRestoring : Bool
deriving DecidableEq, Repr

/-- Embeds `this.sessions.get(sessionId)` on the registry `Map`. -/
def findHandle (reg : List (String × Handle)) (sid : String) : Option Handle :=
  (reg.find? (fun p => p.1 == sid)).map (·.2)

/-- Embeds `this.sessions.delete(sessionId)`. -/
def deleteHandleReg (reg : List (String × Handle)) (sid : String) :
    List (String × Handle) :=
  reg.filter (fun p => p.1 != sid)

/-- Embeds `this.sessions.set(sessionId, handle)`. -/
def setHandleReg (reg : List (String × Handle)) (sid : String) (h : Handle) :
    List (String × Handle) :=
  deleteHandleReg reg sid ++ [(sid, h)]

/-- Mutate the handle stored for a session id (e.g. `session.isReady = false`),
when present. -/
def mapHandleReg (reg : List (String × Handle)) (sid : String)
    (f : Handle → Handle) : List (String × Handle) :=
  reg.map (fun p => if p.1 == sid then (p.1, f p.2) else p)

/-- The `client.on('qr')` handler of `setupClientListeners`: if the handle is
already marked ready the event is ignored; otherwise the status write
`status='qr_generated'` goes through `storeSessionMetadata` — the `updateOne`
path, on which the schema's `pre('save')` middleware does not run. -/
def onQrEvent (reg : List (String × Handle)) (recs : List SessionRecord)
    (sid : String) (now : Timestamp) : List SessionRecord :=
  match findHandle reg sid with
  | some h =>
    if h.isReady then recs
    else storeSessionMetadata recs sid now ⟨some .qr_generated, some now⟩
  | none => storeSessionMetadata recs sid now ⟨some .qr_generated, some now⟩

/-! ## Message persistence (`WhatsappStorageService`) -/

/-- A `WhatsAppMessage` document (content fields that no embedded operation
reads — forwarding flags, media descriptor, mentions, raw data — are
represented by the ones the claims exercise). -/
structure MessageRecord where
  messageId : String
  sessionId : String
  chatId : String
  body : String
  timestamp : Timestamp
  ack : Nat
  isDeleted : Bool
  deletedAt : Option Timestamp
  deletedBy : Option String
  edition : List String
deriving DecidableEq, Repr

/-- The fields of a `WAWebJS.Message` consumed by the storage layer. -/
structure WMessage where
  serializedId : String
  remote : String
  msgFrom : String
  msgTo : String
  body : String
  timestamp : Timestamp
  ack : Nat
deriving DecidableEq, Repr

/-- Dedup key of the message collection: `(messageId, sessionId)`. -/
def msgKeyEq (r : MessageRecord) (mid sid : String) : Bool :=
  r.messageId == mid && r.sessionId == sid

/-- Embeds `findOne({ messageId, sessionId })`. -/
def findMessage (store : List MessageRecord) (mid sid : String) :
    Option MessageRecord :=
  store.find? (fun r => msgKeyEq r mid sid)

/-- Embeds `updateOne({ messageId, sessionId }, { $set: ... })` without upsert. -/
def updateMessageSet (store : List MessageRecord) (mid sid : String)
    (f : MessageRecord → MessageRecord) : List MessageRecord :=
  match store with
  | [] => []
  | r :: rs =>
    if msgKeyEq r mid sid then f r :: rs
    else r :: updateMessageSet rs mid sid f

/-- Embeds `WhatsappStorageService.saveMessage`: look the message up by
`(messageId, sessionId)`; if absent, `create({...messageData, isDeleted:
false})`; if present and `isDeleted`, return without writing; otherwise
`updateOne` with `$set: messageData` — note that `messageData` does not
contain `isDeleted` (preserved) but does contain `deletedAt: null`,
`deletedBy: null` and `edition: []`. -/
def saveMessage (store : List MessageRecord) (sessionId : String)
    (m : WMessage) (chatId : Option String) : List MessageRecord :=
  let messageChatId := chatId.getD m.remote
  match findMessage store m.serializedId sessionId with
  | none =>
    store ++ [{ messageId := m.serializedId
                sessionId := sessionId
                chatId := messageChatId
                body := m.body
                timestamp := m.timestamp
                ack := m.ack
                isDeleted := false
                deletedAt := none
                deletedBy := none
                edition := [] }]
  | some existing =>
    if existing.isDeleted then store
    else
      updateMessageSet store m.serializedId sessionId (fun r =>
        { r with
          chatId := messageChatId
          body := m.body
          timestamp := m.timestamp
          ack := m.ack
          deletedAt := none
          deletedBy := none
          edition := [] })

/-- One `updateOne` operation of the `bulkWrite` issued by
`WhatsappStorageService.saveMessages`: an upsert whose `$set` payload, unlike
`saveMessage`'s, contains `isDeleted: false` (as well as `deletedAt: null`,
`deletedBy: null`, `edition: []`).  The chat id falls back to
`message.from || message.to` (JavaScript truthiness: the empty string is
falsy). -/
def saveMessagesUpsertOne (store : List MessageRecord) (sessionId : String)
    (chatId : Option String) (m : WMessage) : List MessageRecord :=
  let messageChatId :=
    chatId.getD (if m.msgFrom ≠ "" then m.msgFrom else m.msgTo)
  let setFields : MessageRecord → MessageRecord := fun r =>
    { r with
      chatId := messageChatId
      body := m.body
      timestamp := m.timestamp
      ack := m.ack
      isDeleted := false
      deletedAt := none
      deletedBy := none
      edition := [] }
  match findMessage store m.serializedId sessionId with
  | none =>
    store ++ [setFields
      { messageId := m.serializedId
        sessionId := sessionId
        chatId := messageChatId
        body := m.body
        timestamp := m.timestamp
        ack := m.ack
        isDeleted := false
        deletedAt := none
        deletedBy := none
        edition := [] }]
  | some _ => updateMessageSet store m.serializedId sessionId setFields

/-- Embeds `WhatsappStorageService.saveMessages`: the bulk upsert (an empty batch
returns immediately; per-document atomic upserts otherwise). -/
def saveMessages (store : List MessageRecord) (sessionId : String)
    (messages : List WMessage) (chatId : Option String) : List MessageRecord :=
  messages.foldl (fun s m => saveMessagesUpsertOne s sessionId chatId m) store

/-- Embeds `WhatsappStorageService.markMessageAsDeleted`: a non-upsert `updateOne`
setting `isDeleted`, `deletedAt` and `deletedBy`. -/
def markMessageAsDeleted (store : List MessageRecord) (sessionId messageId : String)
    (deletedBy : String) (now : Timestamp) : List MessageRecord :=
  updateMessageSet store messageId sessionId (fun r =>
    { r with isDeleted := true, deletedAt := some now, deletedBy := some deletedBy })

/-- Embeds `WhatsappStorageService.updateMessageEdition`: read the current document,
push `prevBody` onto its edition list (an absent document contributes `[]`),
then `updateOne` with `$set { body: newBody, edition }` — which matches no
document when the message is absent. -/
def updateMessageEdition (store : List MessageRecord) (sessionId : String)
    (m : WMessage) (newBody prevBody : String) : List MessageRecord :=
  let editionHistory :=
    (((findMessage store m.serializedId sessionId).map (·.edition)).getD []) ++ [prevBody]
  updateMessageSet store m.serializedId sessionId (fun r =>
    { r with body := newBody, edition := editionHistory })

/-! ## Chat persistence (`WhatsappStorageService`) -/

/-- A `WhatsAppChat` document. -/
structure ChatRecord where
  chatId : String
  sessionId : String
  name : String
  isGroup : Bool
  unreadCount : Nat
  timestamp : Timestamp
  archived : Bool
  pinned : Bool
  lastMessage : Option String
  deleted : Bool
  deletedAt : List Timestamp
deriving DecidableEq, Repr

/-- The fields of a `WAWebJS.Chat` consumed by the storage layer
(`lastMessageType` embeds `chat.lastMessage?.type`). -/
structure WChat where
  serializedId : String
  name : String
  isGroup : Bool
  unreadCount : Nat
  timestamp : Timestamp
  archived : Bool
  pinned : Bool
  lastMessageType : Option String
  lastMessageBody : Option String
deriving DecidableEq, Repr

/-- Dedup key of the chat collection: `(chatId, sessionId)`. -/
def chatKeyEq (r : ChatRecord) (cid sid : String) : Bool :=
  r.chatId == cid && r.sessionId == sid

/-- Embeds `findOne({ chatId, sessionId })`. -/
def findChat (store : List ChatRecord) (cid sid : String) : Option ChatRecord :=
  store.find? (fun r => chatKeyEq r cid sid)

/-- Embeds `updateOne({ chatId, sessionId }, ...)` without upsert. -/
def updateChatSet (store : List ChatRecord) (cid sid : String)
    (f : ChatRecord → ChatRecord) : List ChatRecord :=
  match store with
  | [] => []
  | r :: rs =>
    if chatKeyEq r cid sid then f r :: rs
    else r :: updateChatSet rs cid sid f

/-- The upsert performed for one chat by `saveChat` and by each iteration of
`saveChats`: `$set` of the content fields — plus `deleted: false` unless the
chat's last message is an `e2e_notification` — and `$setOnInsert
{ deletedAt: [] }`.  Updates never touch the `deletedAt` history list. -/
def saveChatUpsert (store : List ChatRecord) (sessionId : String) (c : WChat) :
    List ChatRecord :=
  let isE2ENotification := c.lastMessageType == some "e2e_notification"
  let setFields : ChatRecord → ChatRecord := fun r =>
    let r1 :=
      { r with
        name := c.name
        isGroup := c.isGroup
        unreadCount := c.unreadCount
        timestamp := c.timestamp
        archived := c.archived
        pinned := c.pinned
        lastMessage := c.lastMessageBody }
    if isE2ENotification then r1 else { r1 with deleted := false }
  match findChat store c.serializedId sessionId with
  | none =>
    store ++ [setFields
      { chatId := c.serializedId
        sessionId := sessionId
        name := c.name
        isGroup := c.isGroup
        unreadCount := c.unreadCount
        timestamp := c.timestamp
        archived := c.archived
        pinned := c.pinned
        lastMessage := c.lastMessageBody
        deleted := false
        deletedAt := [] }]
  | some _ => updateChatSet store c.serializedId sessionId setFields

/-- Embeds `WhatsappStorageService.markChatAsDeleted`: `findOne` first — an absent
chat is only logged and nothing is written; otherwise `updateOne` with
`$set { deleted: true }` and `$push { deletedAt: deletionDate }`. -/
def markChatAsDeleted (store : List ChatRecord) (sessionId chatId : String)
    (now : Timestamp) : List ChatRecord :=
  match findChat store chatId sessionId with
  | none => store
  | some _ =>
    updateChatSet store chatId sessionId (fun r =>
      { r with deleted := true, deletedAt := r.deletedAt ++ [now] })

/-! ## Synchronization engine (`syncChatsWithProgress`)

The engine's own control flow is embedded exactly; the behaviour of the
environment (the automation client and the document store) during the
processing of one chat is an input, one `ChatSpec` per chat:

* `.ok n` — `saveChats` persists the chat and fires its progress callback,
  `getChatById`/`fetchMessages` return `n` messages, and (for `n > 0`)
  `saveMessages` persists them and fires its callback with `n`;
* `.fetchFail` — the chat is saved and its progress callback fires, but a
  later step of the iteration (`getChatById`, `fetchMessages`, or the
  `bulkWrite` inside `saveMessages`) rejects, landing in the iteration's
  `catch`;
* `.chatSaveFail` — the `findOneAndUpdate` inside `saveChats` rejects before
  the progress callback fires, landing in the iteration's `catch`.
-/

/-- Environment outcome for the processing of a single chat. -/
inductive ChatSyncOutcome where
  | ok (nMessages : Nat)
  | fetchFail
  | chatSaveFail
deriving DecidableEq, Repr

/-- One chat of the list returned by `client.getChats()`, together with the
environment outcome of its iteration. -/
structure ChatSpec where
  cid : String
  outcome : ChatSyncOutcome
deriving DecidableEq, Repr

/-- The payload of one `emitSyncChats` gateway event. -/
structure SyncCheckpoint where
  nChats : Nat
  currentChat : Nat
  chatId : Option String
  messagesSynced : Nat
deriving DecidableEq, Repr

/-- The checkpoints emitted while iteration `idx` (1-based, `i + 1` in the
source) processes one chat: the chat-save progress callback, then either the
message-save callback (`messagesSynced = n`), the no-messages emit
(`messagesSynced = 0`, the same as `n = 0`), or the `catch` emit. -/
def perChatCheckpoints (nChats idx : Nat) (c : ChatSpec) : List SyncCheckpoint :=
  match c.outcome with
  | .ok n => [⟨nChats, idx, some c.cid, 0⟩, ⟨nChats, idx, some c.cid, n⟩]
  | .fetchFail => [⟨nChats, idx, some c.cid, 0⟩, ⟨nChats, idx, some c.cid, 0⟩]
  | .chatSaveFail => [⟨nChats, idx, some c.cid, 0⟩]

/-- The `for` loop of `syncChatsWithProgress`: chats processed strictly
sequentially, every iteration's failure caught so the loop continues. -/
def syncLoop (nChats i : Nat) : List ChatSpec → List SyncCheckpoint
  | [] => []
  | c :: rest => perChatCheckpoints nChats (i + 1) c ++ syncLoop nChats (i + 1) rest

/-- The result object of a completed pass. -/
structure SyncResult where
  success : Bool
  chatsProcessed : Nat
deriving DecidableEq, Repr

/-- Embeds `WhatsappWebService.syncChatsWithProgress`: require a live, ready handle
(else throw), fetch the chat list, emit the initial `{nChats, currentChat: 0,
messagesSynced: 0}` checkpoint, run the sequential loop, and return
`{success: true, chatsProcessed: nChats}`.  The value is the emitted
checkpoint sequence paired with the result. -/
def syncChatsWithProgress (handle : Option Handle) (chats : List ChatSpec) :
    Except String (List SyncCheckpoint × SyncResult) :=
  match handle with
  | none => .error "Session not found"
  | some h =>
    if !h.isReady then .error "Session is not ready yet"
    else
      let nChats := chats.length
      .ok (⟨nChats, 0, none, 0⟩ :: syncLoop nChats 0 chats,
           ⟨true, nChats⟩)

/-! ## Session lifecycle controller (`createSession`) -/

/-- Outcome of one `client.initialize()` call: resolution, or rejection with
an error whose combined message and stack text is `message`. -/
inductive InitOutcome where
  | initOk
  | initErr (message : String)
deriving DecidableEq, Repr

/-- Embeds `WhatsappWebService.isSingletonLockError`: substring tests on the
concatenated error message and stack. -/
def isSingletonLockError (fullError : String) : Bool :=
  decide ("SingletonLock".toList <:+: fullError.toList) ||
  decide ("Failed to create a ProcessSingleton".toList <:+: fullError.toList) ||
  (decide ("File exists".toList <:+: fullError.toList) &&
   decide ("session-".toList <:+: fullError.toList))

/-- Observable actions of a `createSession` run, in program order. -/
inductive CreateEffect where
  | persistStatus (sessionId : String) (status : SessionStatus)
  | destroyClient (sessionId : String)
  | removeFolder (sessionId : String)
  | waitMs (ms : Nat)
  | initClient (sessionId : String) (retryCount : Nat)
  | registerHandle (sessionId : String)
  | deleteHandle (sessionId : String)
deriving DecidableEq, Repr

/-- The state `createSession` reads and writes: the in-memory registry and
the durable session collection. -/
structure ServiceState where
  registry : List (String × Handle)
  records : List SessionRecord
deriving DecidableEq, Repr

/-- The `{success, sessionId, message}` result object. -/
structure CreateResult where
  success : Bool
  sessionId : String
  message : String
deriving DecidableEq, Repr

/-- The options argument of `createSession` (the `groupId`/`title` metadata
fields are stripped by schema strict mode and carry no observable state). -/
structure CreateOpts where
  isRestoring : Bool
deriving DecidableEq, Repr

/-- Result of the pre-initialization phase of `createSession`: either one of
the two benign `{success:false}` rejections, or permission to proceed,
carrying the teardown effects and the registry left by the teardown. -/
inductive PreludeResult where
  | reject (res : CreateResult)
  | proceed (fx : List CreateEffect) (reg1 : List (String × Handle))
deriving DecidableEq, Repr

/-- The pre-initialization phase of `createSession`, in source order: read
the registry handle and the stored document; reject when a ready handle
exists and the stored status is ready/authenticated; reject when the stored
status is ready/authenticated and any handle exists (the restore path
proceeds only when no handle exists); otherwise tear down a present
non-ready handle (best effort) before proceeding. -/
def createPrelude (sid : String) (st : ServiceState) : PreludeResult :=
  let existingSession := findHandle st.registry sid
  let storedSession := findSession st.records sid
  let storedAuth : Bool := storedSession.elim false
    (fun r => r.status == .ready || r.status == .authenticated)
  if existingSession.elim false (·.isReady) && storedAuth then
    .reject ⟨false, sid, "Session already exists and is authenyticated"⟩
  else if storedAuth && existingSession.isSome then
    .reject ⟨false, sid, "Session is already authenticated"⟩
  else
    match existingSession with
    | some h =>
      if !h.isReady then
        .proceed [CreateEffect.destroyClient sid] (deleteHandleReg st.registry sid)
      else .proceed [] st.registry
    | none => .proceed [] st.registry

/-- The tail of a `createSession` run whose `client.initialize()` resolved:
persist `status='initializing'`, initialize, register the handle
(`isReady:false`, `isRestoring` from the options) and return
`{success:true}`.  `fx1`/`reg1` come from the prelude. -/
def createProceedOk (sid : String) (opts : CreateOpts) (now : Timestamp)
    (st : ServiceState) (fx1 : List CreateEffect)
    (reg1 : List (String × Handle)) (retryCount : Nat) :
    List CreateEffect × ServiceState × Except String CreateResult :=
  (fx1 ++ [CreateEffect.persistStatus sid .initializing,
           CreateEffect.initClient sid retryCount,
           CreateEffect.registerHandle sid],
   { registry := setHandleReg reg1 sid ⟨false, opts.isRestoring⟩
     records := storeSessionMetadata st.records sid now
       ⟨some .initializing, some now⟩ },
   .ok ⟨true, sid, "Session created successfully"⟩)

/-- Embeds `WhatsappWebService.createSession(sessionId, options, retryCount)`.

The list of `InitOutcome`s supplies the environment's answer to each
successive `client.initialize()` call (an exhausted list answers success).
Returns the effect trace, the final state, and either the `{success, ...}`
result or the thrown error.

After the prelude (`createPrelude`) and the `status='initializing'` upsert,
the client is constructed and initialized: on success the handle is
registered; on a `SingletonLock` failure with `retryCount == 0` the session
folder is removed, the handle dropped, a fixed 1000 ms backoff waited, and
the call recurses with `retryCount + 1`; on any other failure (or a retried
conflict) the handle is dropped, `status='error'` upserted, and the failure
thrown. -/
def createSessionGo (sid : String) (opts : CreateOpts) (now : Timestamp) :
    List InitOutcome → ServiceState → Nat →
    List CreateEffect × ServiceState × Except String CreateResult
  | [], st, retryCount =>
    match createPrelude sid st with
    | .reject res => ([], st, .ok res)
    | .proceed fx1 reg1 => createProceedOk sid opts now st fx1 reg1 retryCount
  | .initOk :: _, st, retryCount =>
    match createPrelude sid st with
    | .reject res => ([], st, .ok res)
    | .proceed fx1 reg1 => createProceedOk sid opts now st fx1 reg1 retryCount
  | .initErr msg :: rest, st, retryCount =>
    match createPrelude sid st with
    | .reject res => ([], st, .ok res)
    | .proceed fx1 reg1 =>
      let recs1 := storeSessionMetadata st.records sid now
        ⟨some .initializing, some now⟩
      let fx2 := fx1 ++ [CreateEffect.persistStatus sid .initializing,
                         CreateEffect.initClient sid retryCount]
      if isSingletonLockError msg && retryCount == 0 then
        let retried := createSessionGo sid opts now rest
          { registry := deleteHandleReg reg1 sid, records := recs1 }
          (retryCount + 1)
        (fx2 ++ [CreateEffect.removeFolder sid, CreateEffect.deleteHandle sid,
                 CreateEffect.waitMs 1000] ++ retried.1,
         retried.2.1, retried.2.2)
      else
        (fx2 ++ [CreateEffect.deleteHandle sid,
                 CreateEffect.persistStatus sid .error],
         { registry := deleteHandleReg reg1 sid
           records := storeSessionMetadata recs1 sid now
             ⟨some .error, some now⟩ },
         .error ("Failed to create session: " ++ msg))

/-- Entry point: `createSession` starts with `retryCount = 0`. -/
def createSession (sid : String) (opts : CreateOpts) (now : Timestamp)
    (outcomes : List InitOutcome) (st : ServiceState) :
    List CreateEffect × ServiceState × Except String CreateResult :=
  createSessionGo sid opts now outcomes st 0

/-! ## The `disconnected` event handler -/

/-- A `WhatsAppAlert` document as produced by the alerts service. -/
structure AlertRecord where
  typ : String
  sessionId : String
  message : String
  isRead : Bool
deriving DecidableEq, Repr

/-- Observable actions of the `disconnected` handler, in program order.
`reconnectAttempt` embeds the auto-reconnect `setTimeout`, present in an
older generation of the handler and commented out in the current one. -/
inductive DisconnectEffect where
  | markNotReady
  | persistStatusDisconnected
  | persistDisconnectFlags
  | emitAlert (typ : String)
  | removeFromRegistry
  | reconnectAttempt
deriving DecidableEq, Repr

/-- Full observable state for the event handlers: registry, session
collection and alert collection. -/
structure WorldState where
  registry : List (String × Handle)
  records : List SessionRecord
  alerts : List AlertRecord
deriving DecidableEq, Repr

/-- The `client.on('disconnected')` handler of `setupClientListeners` (current
generation): mark a present handle not-ready; upsert
`status='disconnected'` through `storeSessionMetadata`; `findOne` the session
document; `updateOne` `$set {isDisconnected: true, closedAt}` (no upsert);
create a `disconnected` alert when the document was found (it always is,
because the preceding upsert created it); finally delete the handle from the
registry.  The auto-reconnect block is commented out in the source and emits
nothing. -/
def onDisconnected (w : WorldState) (sid : String) (reason : String)
    (now : Timestamp) : List DisconnectEffect × WorldState :=
  let markStep :=
    match findHandle w.registry sid with
    | some _ => ([DisconnectEffect.markNotReady],
                 mapHandleReg w.registry sid (fun h => { h with isReady := false }))
    | none => ([], w.registry)
  let recs1 := storeSessionMetadata w.records sid now ⟨some .disconnected, some now⟩
  let sessionDoc := findSession recs1 sid
  let recs2 := updateSessionSet recs1 sid (fun r =>
    { r with isDisconnected := true, closedAt := some now })
  let alertStep :=
    match sessionDoc with
    | some _ =>
      ([DisconnectEffect.emitAlert "disconnected"],
       w.alerts ++ [({ typ := "disconnected", sessionId := sid,
                       message := "Session " ++ sid ++ " disconnected: " ++ reason,
                       isRead := false } : AlertRecord)])
    | none => ([], w.alerts)
  (markStep.1 ++ [DisconnectEffect.persistStatusDisconnected,
                  DisconnectEffect.persistDisconnectFlags] ++ alertStep.1 ++
     [DisconnectEffect.removeFromRegistry],
   { registry := deleteHandleReg markStep.2 sid
     records := recs2
     alerts := alertStep.2 })

/-! ## Concrete instances used by counterexamples and witnesses -/

/-- A registry holding one live, not-yet-ready handle for session `s1`. -/
def c1Registry : List (String × Handle) := [("s1", ⟨false, false⟩)]

/-- The session collection after five consecutive `qr` events for `s1`,
starting from an empty collection — every write going through the
`storeSessionMetadata` (`updateOne`) path, exactly as in the handler. -/
def c1AfterFiveQr : List SessionRecord :=
  onQrEvent c1Registry
    (onQrEvent c1Registry
      (onQrEvent c1Registry
        (onQrEvent c1Registry
          (onQrEvent c1Registry [] "s1" 1) "s1" 2) "s1" 3) "s1" 4) "s1" 5

/-- A message store holding one revoked (soft-deleted) message. -/
def c2Store : List MessageRecord :=
  [{ messageId := "m1", sessionId := "s1", chatId := "c1", body := "original",
     timestamp := 10, ack := 2, isDeleted := true, deletedAt := some 11,
     deletedBy := some "everyone", edition := ["draft"] }]

/-- A late duplicate delivery of the same message with a different body. -/
def c2Msg : WMessage :=
  { serializedId := "m1", remote := "c1", msgFrom := "u1", msgTo := "u2",
    body := "late duplicate", timestamp := 10, ack := 2 }

/-- A message store holding one live message with one edition-history entry. -/
def c3Store : List MessageRecord :=
  [{ messageId := "m1", sessionId := "s1", chatId := "c1", body := "second",
     timestamp := 4, ack := 1, isDeleted := false, deletedAt := none,
     deletedBy := none, edition := ["first"] }]

/-- A re-delivery of that message (same id, same body). -/
def c3Msg : WMessage :=
  { serializedId := "m1", remote := "c1", msgFrom := "u1", msgTo := "u2",
    body := "second", timestamp := 4, ack := 1 }

/-- A state with a live but not-ready handle for `s1` while the durable record
says `authenticated`. -/
def c5State : ServiceState :=
  { registry := [("s1", ⟨false, false⟩)]
    records := [{ sessionId := "s1", status := .authenticated, lastSeen := 0,
                  qrAttempts := 0, maxQrAttempts := 3, closedAt := none,
                  isDisconnected := false }] }

/-- A world with a ready registered handle, a ready durable record and no
alerts, as hit by a `disconnected` event. -/
def c7World : WorldState :=
  { registry := [("s1", ⟨true, false⟩)]
    records := [{ sessionId := "s1", status := .ready, lastSeen := 3,
                  qrAttempts := 0, maxQrAttempts := 3, closedAt := none,
                  isDisconnected := false }]
    alerts := [] }

/-- A chat store holding one never-deleted chat for `s1`. -/
def c8Store : List ChatRecord :=
  [{ chatId := "c1", sessionId := "s1", name := "family", isGroup := true,
     unreadCount := 0, timestamp := 20, archived := false, pinned := false,
     lastMessage := some "hi", deleted := false, deletedAt := [] }]

/-- A chat observed by the client, not yet present in the store. -/
def c8Chat : WChat :=
  { serializedId := "c2", name := "work", isGroup := false, unreadCount := 1,
    timestamp := 21, archived := false, pinned := true,
    lastMessageType := some "chat", lastMessageBody := some "ok" }

/-- A message store with one message, none of them keyed `missing`. -/
def c9Store : List MessageRecord :=
  [{ messageId := "m7", sessionId := "s1", chatId := "c1", body := "kept",
     timestamp := 5, ack := 1, isDeleted := false, deletedAt := none,
     deletedBy := none, edition := [] }]

/-! ## Store lemmas -/

theorem applySet_sessionId (m : SessionMetadata) (r : SessionRecord) :
    (applySet m r).sessionId = r.sessionId := rfl

theorem findSession_storeSessionMetadata_self (recs : List SessionRecord)
    (sid : String) (now : Timestamp) (m : SessionMetadata) :
    findSession (storeSessionMetadata recs sid now m) sid =
      some (applySet m ((findSession recs sid).getD (defaultSessionRecord sid now))) := by
  induction recs with
  | nil =>
    simp [storeSessionMetadata, findSession, List.find?, applySet, defaultSessionRecord]
  | cons r rs ih =>
    by_cases h : r.sessionId == sid
    · simp [storeSessionMetadata, findSession, List.find?, h, applySet_sessionId]
    · simp only [storeSessionMetadata, h, if_false, Bool.false_eq_true]
      simp only [findSession, List.find?] at ih ⊢
      simp [h, ih]

theorem findSession_updateSessionSet_self (recs : List SessionRecord)
    (sid : String) (f : SessionRecord → SessionRecord)
    (hf : ∀ r, (f r).sessionId = r.sessionId) :
    findSession (updateSessionSet recs sid f) sid =
      (findSession recs sid).map f := by
  induction recs with
  | nil => rfl
  | cons r rs ih =>
    by_cases h : r.sessionId == sid
    · simp [updateSessionSet, findSession, List.find?, h, hf]
    · simp only [updateSessionSet, h, if_false, Bool.false_eq_true]
      simp only [findSession, List.find?] at ih ⊢
      simp [h, ih]

theorem findHandle_deleteHandleReg (reg : List (String × Handle)) (sid : String) :
    findHandle (deleteHandleReg reg sid) sid = none := by
  induction reg with
  | nil => rfl
  | cons p ps ih =>
    simp only [deleteHandleReg, List.filter_cons] at ih ⊢
    by_cases h : p.1 == sid
    · simpa [bne, h] using ih
    · simp only [bne, h, Bool.not_false, if_true]
      simp only [findHandle, List.find?, h] at ih ⊢
      exact ih

theorem findMessage_updateMessageSet_self (store : List MessageRecord)
    (mid sid : String) (f : MessageRecord → MessageRecord)
    (hf : ∀ r, msgKeyEq (f r) mid sid = msgKeyEq r mid sid) :
    findMessage (updateMessageSet store mid sid f) mid sid =
      (findMessage store mid sid).map f := by
  induction store with
  | nil => rfl
  | cons r rs ih =>
    by_cases h : msgKeyEq r mid sid
    · simp [updateMessageSet, findMessage, List.find?, h, hf]
    · simp only [updateMessageSet, h, if_false, Bool.false_eq_true]
      simp only [findMessage, List.find?] at ih ⊢
      simp [h, ih]

theorem updateMessageSet_of_find_none (store : List MessageRecord)
    (mid sid : String) (f : MessageRecord → MessageRecord)
    (h : findMessage store mid sid = none) :
    updateMessageSet store mid sid f = store := by
  induction store with
  | nil => rfl
  | cons r rs ih =>
    simp only [findMessage, List.find?] at h
    by_cases hr : msgKeyEq r mid sid
    · simp [hr] at h
    · simp only [hr, Bool.false_eq_true, if_false] at h ⊢
      simp only [updateMessageSet, hr, if_false, Bool.false_eq_true]
      have := ih (by simpa [findMessage] using h)
      simp [this]

theorem findChat_updateChatSet_self (store : List ChatRecord)
    (cid sid : String) (f : ChatRecord → ChatRecord)
    (hf : ∀ r, chatKeyEq (f r) cid sid = chatKeyEq r cid sid) :
    findChat (updateChatSet store cid sid f) cid sid =
      (findChat store cid sid).map f := by
  induction store with
  | nil => rfl
  | cons r rs ih =>
    by_cases h : chatKeyEq r cid sid
    · simp [updateChatSet, findChat, List.find?, h, hf]
    · simp only [updateChatSet, h, if_false, Bool.false_eq_true]
      simp only [findChat, List.find?] at ih ⊢
      simp [h, ih]

/-! ## Synchronization loop lemmas -/

theorem currentChat_of_mem_perChat {n idx : Nat} {c : ChatSpec} {cp : SyncCheckpoint}
    (h : cp ∈ perChatCheckpoints n idx c) : cp.currentChat = idx := by
  rcases c with ⟨cid, outcome⟩
  cases outcome with
  | ok nm =>
    simp only [perChatCheckpoints, List.mem_cons, List.mem_singleton] at h
    rcases h with rfl | h
    · rfl
    · simp only [List.not_mem_nil, or_false] at h
      subst h
      rfl
  | fetchFail =>
    simp only [perChatCheckpoints, List.mem_cons, List.mem_singleton] at h
    rcases h with rfl | h
    · rfl
    · simp only [List.not_mem_nil, or_false] at h
      subst h
      rfl
  | chatSaveFail =>
    simp only [perChatCheckpoints, List.mem_singleton] at h
    subst h
    rfl

theorem perChat_ne_nil (n idx : Nat) (c : ChatSpec) :
    perChatCheckpoints n idx c ≠ [] := by
  rcases c with ⟨cid, outcome⟩
  cases outcome <;> simp [perChatCheckpoints]

theorem currentChat_of_mem_syncLoop {n i : Nat} {l : List ChatSpec}
    {cp : SyncCheckpoint} (h : cp ∈ syncLoop n i l) :
    i + 1 ≤ cp.currentChat ∧ cp.currentChat ≤ i + l.length := by
  induction l generalizing i with
  | nil => simp [syncLoop] at h
  | cons c rest ih =>
    simp only [syncLoop, List.mem_append] at h
    rcases h with h | h
    · have hc := currentChat_of_mem_perChat h
      simp only [List.length_cons]
      omega
    · have hc := ih (i := i + 1) h
      simp only [List.length_cons]
      omega

theorem pairwise_syncLoop (n i : Nat) (l : List ChatSpec) :
    (syncLoop n i l).Pairwise (fun a b => a.currentChat ≤ b.currentChat) := by
  induction l generalizing i with
  | nil => simp [syncLoop]
  | cons c rest ih =>
    simp only [syncLoop]
    refine List.pairwise_append.mpr ⟨?_, ih (i + 1), ?_⟩
    · refine List.pairwise_of_forall_mem_list (fun a ha b hb => ?_)
      rw [currentChat_of_mem_perChat ha, currentChat_of_mem_perChat hb]
    · intro a ha b hb
      have h1 := currentChat_of_mem_perChat ha
      have h2 := (currentChat_of_mem_syncLoop hb).1
      omega

theorem length_perChat_of_no_save_fail {n idx : Nat} {c : ChatSpec}
    (h : c.outcome ≠ .chatSaveFail) : (perChatCheckpoints n idx c).length = 2 := by
  rcases c with ⟨cid, outcome⟩
  cases outcome with
  | ok nm => rfl
  | fetchFail => rfl
  | chatSaveFail => exact absurd rfl h

theorem length_syncLoop {l : List ChatSpec} (n i : Nat)
    (h : ∀ c ∈ l, c.outcome ≠ .chatSaveFail) :
    (syncLoop n i l).length = 2 * l.length := by
  induction l generalizing i with
  | nil => rfl
  | cons c rest ih =>
    simp only [syncLoop, List.length_append, List.length_cons]
    rw [length_perChat_of_no_save_fail (h c (by simp)),
        ih (i + 1) (fun x hx => h x (by simp [hx]))]
    omega

theorem syncLoop_ne_nil {n i : Nat} {l : List ChatSpec} (h : l ≠ []) :
    syncLoop n i l ≠ [] := by
  match l with
  | [] => exact absurd rfl h
  | c :: rest =>
    simp only [syncLoop, ne_eq, List.append_eq_nil]
    intro hc
    exact perChat_ne_nil n (i + 1) c hc.1

theorem getLast_perChat (n idx : Nat) (c : ChatSpec) :
    ((perChatCheckpoints n idx c).getLast?).map (·.currentChat) = some idx := by
  rcases c with ⟨cid, outcome⟩
  cases outcome <;> rfl

theorem getLast_syncLoop {n i : Nat} {l : List ChatSpec} (h : l ≠ []) :
    ((syncLoop n i l).getLast?).map (·.currentChat) = some (i + l.length) := by
  induction l generalizing i with
  | nil => exact absurd rfl h
  | cons c rest ih =>
    rcases eq_or_ne rest [] with rfl | hne
    · simp only [syncLoop, List.append_nil, List.length_cons, List.length_nil]
      exact getLast_perChat n (i + 1) c
    · simp only [syncLoop]
      rw [List.getLast?_append_of_ne_nil _ (syncLoop_ne_nil hne), ih hne]
      simp only [List.length_cons, Option.some.injEq]
      omega

/-! ## Claim theorems -/

/-- C9: if no message with the given `(sessionId, messageId)` exists in the
store, `markMessageAsDeleted` performs no write and raises no error — its
`updateOne` is not an upsert, matches zero documents, and the entire message
store is left unchanged. -/
theorem C9_markMessageAsDeleted_frame (store : List MessageRecord)
    (sid mid deletedBy : String) (now : Timestamp)
    (h : findMessage store mid sid = none) :
    markMessageAsDeleted store sid mid deletedBy now = store := by
  unfold markMessageAsDeleted
  exact updateMessageSet_of_find_none store mid sid _ h

/-- Witness for C9 at a concrete store containing no message keyed
`("missing", "s1")`. -/
theorem C9_markMessageAsDeleted_frame_witness :
    markMessageAsDeleted c9Store "s1" "missing" "everyone" 9 = c9Store :=
  C9_markMessageAsDeleted_frame c9Store "s1" "missing" "everyone" 9 (by decide)

/-- Helper: `findChat` looks past a prefix containing no record with the
key. -/
theorem findChat_append_of_none (store l : List ChatRecord) (cid sid : String)
    (h : findChat store cid sid = none) :
    findChat (store ++ l) cid sid = findChat l cid sid := by
  induction store with
  | nil => rfl
  | cons r rs ih =>
    simp only [findChat, List.find?] at h
    by_cases hr : chatKeyEq r cid sid
    · simp [hr] at h
    · simp only [hr, Bool.false_eq_true, if_false] at h
      simp only [List.cons_append, findChat, List.find?, hr]
      exact ih (by simpa [findChat] using h)

/-- C8: `markChatAsDeleted` appends one timestamp to the `deletedAt` list of a
stored chat per call (so `k` calls append exactly the `k` timestamps), and a
chat inserted by the `saveChat`/`saveChats` upsert starts with an empty
`deletedAt` list — hence `k` calls on a freshly stored chat yield a list of
length `k`. -/
theorem C8_markChatAsDeleted_appends (store : List ChatRecord)
    (sid cid : String) (times : List Timestamp) (r : ChatRecord)
    (hfind : findChat store cid sid = some r) :
    ((findChat (times.foldl (fun s t => markChatAsDeleted s sid cid t) store)
        cid sid).map (·.deletedAt)) = some (r.deletedAt ++ times) ∧
    (∀ (store₂ : List ChatRecord) (c : WChat),
      findChat store₂ c.serializedId sid = none →
      ((findChat (saveChatUpsert store₂ sid c) c.serializedId sid).map
          (·.deletedAt)) = some []) := by
  constructor
  · induction times generalizing store r with
    | nil => simp [hfind]
    | cons t rest ih =>
      simp only [List.foldl_cons]
      have hstep :
          findChat (markChatAsDeleted store sid cid t) cid sid =
            some { r with deleted := true, deletedAt := r.deletedAt ++ [t] } := by
        unfold markChatAsDeleted
        rw [hfind]
        dsimp only
        rw [findChat_updateChatSet_self store cid sid
          (fun x => { x with deleted := true, deletedAt := x.deletedAt ++ [t] })
          (fun x => rfl), hfind]
        rfl
      have := ih (markChatAsDeleted store sid cid t)
        { r with deleted := true, deletedAt := r.deletedAt ++ [t] } hstep
      simpa [List.append_assoc] using this
  · intro store₂ c hnone
    unfold saveChatUpsert
    rw [hnone]
    rw [findChat_append_of_none store₂ _ _ _ hnone]
    by_cases he : (c.lastMessageType == some "e2e_notification") = true
    · simp [findChat, List.find?, chatKeyEq, he]
    · simp [findChat, List.find?, chatKeyEq, he]

/-- Witness for C8: three deletions of the stored chat `c1` yield a
three-element history; the freshly inserted chat `c2` starts with an empty
history. -/
theorem C8_markChatAsDeleted_appends_witness :
    ((findChat ([31, 32, 33].foldl
        (fun s t => markChatAsDeleted s "s1" "c1" t) c8Store) "c1" "s1").map
      (·.deletedAt)) = some ([] ++ [31, 32, 33]) ∧
    (∀ (store₂ : List ChatRecord) (c : WChat),
      findChat store₂ c.serializedId "s1" = none →
      ((findChat (saveChatUpsert store₂ "s1" c) c.serializedId "s1").map
          (·.deletedAt)) = some []) :=
  C8_markChatAsDeleted_appends c8Store "s1" "c1" [31, 32, 33]
    { chatId := "c1", sessionId := "s1", name := "family", isGroup := true,
      unreadCount := 0, timestamp := 20, archived := false, pinned := false,
      lastMessage := some "hi", deleted := false, deletedAt := [] } (by decide)

/-- C7: for every `disconnected` protocol event on a registered session, the
handler marks the handle not-ready, persists `status='disconnected'` together
with `isDisconnected=true` and `closedAt`, creates exactly one alert of type
`disconnected`, and removes the handle from the registry, with no implicit
reconnect attempt afterwards (the effect trace is exactly the five listed
steps, containing one alert emission and no `reconnectAttempt`). -/
theorem C7_disconnected_handler (w : WorldState) (sid reason : String)
    (now : Timestamp) (hdl : Handle)
    (hreg : findHandle w.registry sid = some hdl) :
    (onDisconnected w sid reason now).1 =
      [.markNotReady, .persistStatusDisconnected, .persistDisconnectFlags,
       .emitAlert "disconnected", .removeFromRegistry] ∧
    findHandle (onDisconnected w sid reason now).2.registry sid = none ∧
    (∃ r, findSession (onDisconnected w sid reason now).2.records sid = some r ∧
      r.status = .disconnected ∧ r.isDisconnected = true ∧
      r.closedAt = some now) ∧
    (onDisconnected w sid reason now).2.alerts =
      w.alerts ++ [{ typ := "disconnected", sessionId := sid,
                     message := "Session " ++ sid ++ " disconnected: " ++ reason,
                     isRead := false }] ∧
    DisconnectEffect.reconnectAttempt ∉ (onDisconnected w sid reason now).1 := by
  have hfound := findSession_storeSessionMetadata_self w.records sid now
    ⟨some .disconnected, some now⟩
  have hupd := findSession_updateSessionSet_self
    (storeSessionMetadata w.records sid now ⟨some .disconnected, some now⟩) sid
    (fun r => { r with isDisconnected := true, closedAt := some now })
    (fun r => rfl)
  refine ⟨?_, ?_, ?_, ?_, ?_⟩
  · simp [onDisconnected, hreg, hfound]
  · simp only [onDisconnected, hreg, hfound]
    exact findHandle_deleteHandleReg _ sid
  · refine ⟨{ applySet ⟨some .disconnected, some now⟩
        ((findSession w.records sid).getD (defaultSessionRecord sid now)) with
        isDisconnected := true, closedAt := some now }, ?_, rfl, rfl, rfl⟩
    simp only [onDisconnected, hreg, hfound]
    rw [hupd, hfound]
    rfl
  · simp [onDisconnected, hreg, hfound]
  · simp [onDisconnected, hreg, hfound]

/-- Witness for C7 at a concrete ready session world. -/
theorem C7_disconnected_handler_witness :
    (onDisconnected c7World "s1" "NAVIGATION" 42).1 =
      [.markNotReady, .persistStatusDisconnected, .persistDisconnectFlags,
       .emitAlert "disconnected", .removeFromRegistry] ∧
    findHandle (onDisconnected c7World "s1" "NAVIGATION" 42).2.registry "s1" = none ∧
    (∃ r, findSession (onDisconnected c7World "s1" "NAVIGATION" 42).2.records "s1" =
        some r ∧ r.status = .disconnected ∧ r.isDisconnected = true ∧
        r.closedAt = some 42) ∧
    (onDisconnected c7World "s1" "NAVIGATION" 42).2.alerts =
      c7World.alerts ++
        [{ typ := "disconnected", sessionId := "s1",
           message := "Session " ++ "s1" ++ " disconnected: " ++ "NAVIGATION",
           isRead := false }] ∧
    DisconnectEffect.reconnectAttempt ∉ (onDisconnected c7World "s1" "NAVIGATION" 42).1 :=
  C7_disconnected_handler c7World "s1" "NAVIGATION" 42 ⟨true, false⟩ (by decide)

/-- C2 counterexample: `saveMessages` (the bulk path) does not leave a deleted
record unchanged — at this concrete input it rewrites the record and resets
`isDeleted` from `true` to `false`, while the claim requires the record to
stay unchanged with `isDeleted` still `true`. -/
theorem C2_counterexample_saveMessages_resurrects :
    saveMessages c2Store "s1" [c2Msg] none ≠ c2Store ∧
    ((findMessage (saveMessages c2Store "s1" [c2Msg] none) "m1" "s1").map
        (·.isDeleted)) = some false ∧
    ((findMessage c2Store "m1" "s1").map (·.isDeleted)) = some true := by
  refine ⟨?_, rfl, rfl⟩
  decide

/-- C2 (amended): once a stored message has `isDeleted=true`, a subsequent
`saveMessage` call for the same `(sessionId, messageId)` is a no-op (the store
is left unchanged), but a subsequent `saveMessages` bulk call overwrites the
record and resets `isDeleted` to `false` — the bulk path resurrects revoked
messages. -/
theorem C2_deleted_message_protection (store : List MessageRecord)
    (sid : String) (m : WMessage) (chatId : Option String) (r : MessageRecord)
    (hfind : findMessage store m.serializedId sid = some r)
    (hdel : r.isDeleted = true) :
    saveMessage store sid m chatId = store ∧
    ((findMessage (saveMessages store sid [m] chatId) m.serializedId sid).map
        (·.isDeleted)) = some false := by
  constructor
  · unfold saveMessage
    rw [hfind]
    simp [hdel]
  · unfold saveMessages
    simp only [List.foldl_cons, List.foldl_nil]
    unfold saveMessagesUpsertOne
    rw [hfind]
    dsimp only
    rw [findMessage_updateMessageSet_self store m.serializedId sid
      (fun x => { x with
        chatId := chatId.getD (if m.msgFrom ≠ "" then m.msgFrom else m.msgTo)
        body := m.body
        timestamp := m.timestamp
        ack := m.ack
        isDeleted := false
        deletedAt := none
        deletedBy := none
        edition := [] })
      (fun x => rfl), hfind]
    rfl

/-- Witness for C2 (amended) at the concrete deleted message of `c2Store`. -/
theorem C2_deleted_message_protection_witness :
    saveMessage c2Store "s1" c2Msg none = c2Store ∧
    ((findMessage (saveMessages c2Store "s1" [c2Msg] none) "m1" "s1").map
        (·.isDeleted)) = some false :=
  C2_deleted_message_protection c2Store "s1" c2Msg none
    { messageId := "m1", sessionId := "s1", chatId := "c1", body := "original",
      timestamp := 10, ack := 2, isDeleted := true, deletedAt := some 11,
      deletedBy := some "everyone", edition := ["draft"] } (by decide) rfl

/-- C3 counterexample: `saveMessage` on an existing non-deleted message resets
the edition list to `[]` — at this concrete input the stored edition history
shrinks from `["first"]` to `[]`, while the claim says no save/update
operation ever shortens or clears the list. -/
theorem C3_counterexample_saveMessage_clears_edition :
    ((findMessage (saveMessage c3Store "s1" c3Msg none) "m1" "s1").map
        (·.edition)) = some [] ∧
    ((findMessage c3Store "m1" "s1").map (·.edition)) = some ["first"] := by
  exact ⟨rfl, rfl⟩

/-- C3 (amended): `updateMessageEdition` is append-only on an existing
message — each call appends exactly the supplied previous-body argument, so
`k` calls append `k` entries in call order (length `k` when starting from a
fresh message, whose list is empty) — but re-saving the message through
`saveMessage` (similarly `saveMessages`) resets the edition list to `[]`, so
other save operations can clear it. -/
theorem C3_edition_history_append (store : List MessageRecord) (sid : String)
    (m : WMessage) (chatId : Option String) (edits : List (String × String))
    (r : MessageRecord)
    (hfind : findMessage store m.serializedId sid = some r) :
    ((findMessage (edits.foldl
        (fun s e => updateMessageEdition s sid m e.1 e.2) store)
        m.serializedId sid).map (·.edition)) =
      some (r.edition ++ edits.map (·.2)) ∧
    (r.isDeleted = false →
      ((findMessage (saveMessage store sid m chatId) m.serializedId sid).map
          (·.edition)) = some []) := by
  constructor
  · induction edits generalizing store r with
    | nil => simp [hfind]
    | cons e rest ih =>
      simp only [List.foldl_cons]
      have hstep :
          findMessage (updateMessageEdition store sid m e.1 e.2)
              m.serializedId sid =
            some { r with body := e.1, edition := r.edition ++ [e.2] } := by
        unfold updateMessageEdition
        rw [hfind]
        dsimp only
        simp only [Option.map_some', Option.getD_some]
        rw [findMessage_updateMessageSet_self store m.serializedId sid
          (fun x => { x with body := e.1, edition := r.edition ++ [e.2] })
          (fun x => rfl), hfind]
        rfl
      have := ih (updateMessageEdition store sid m e.1 e.2)
        { r with body := e.1, edition := r.edition ++ [e.2] } hstep
      simpa [List.append_assoc] using this
  · intro hlive
    unfold saveMessage
    rw [hfind]
    dsimp only
    simp only [hlive, Bool.false_eq_true, if_false]
    rw [findMessage_updateMessageSet_self store m.serializedId sid
      (fun x => { x with
        chatId := chatId.getD m.remote
        body := m.body
        timestamp := m.timestamp
        ack := m.ack
        deletedAt := none
        deletedBy := none
        edition := [] })
      (fun x => rfl), hfind]
    rfl

/-- Witness for C3 (amended): two edits of the live message in `c3Store`
append the two previous bodies; a re-save clears the list. -/
theorem C3_edition_history_append_witness :
    ((findMessage ([("third", "second"), ("fourth", "third")].foldl
        (fun s e => updateMessageEdition s "s1" c3Msg e.1 e.2) c3Store)
        "m1" "s1").map (·.edition)) =
      some (["first"] ++ ["second", "third"]) ∧
    ((false : Bool) = false →
      ((findMessage (saveMessage c3Store "s1" c3Msg none) "m1" "s1").map
          (·.edition)) = some []) := by
  have h := C3_edition_history_append c3Store "s1" c3Msg none
    [("third", "second"), ("fourth", "third")]
    { messageId := "m1", sessionId := "s1", chatId := "c1", body := "second",
      timestamp := 4, ack := 1, isDeleted := false, deletedAt := none,
      deletedBy := none, edition := ["first"] } (by decide)
  exact ⟨h.1, fun _ => h.2 rfl⟩

/-- C4 counterexample: on a ready session with one chat whose chat-record save
fails before the progress callback, the pass emits 2 checkpoints, not
`1 + 2·N = 3` as the claim requires (the failed chat contributes only the
`catch` checkpoint). -/
theorem C4_counterexample_checkpoint_count :
    syncChatsWithProgress (some ⟨true, false⟩) [⟨"c1", .chatSaveFail⟩] =
      .ok ([⟨1, 0, none, 0⟩, ⟨1, 1, some "c1", 0⟩], ⟨true, 1⟩) ∧
    ¬ ((2 : Nat) = 1 + 2 * 1) := by
  exact ⟨rfl, by decide⟩

/-- C4 (amended): on a ready handle the pass returns
`{success: true, chatsProcessed: N}`, the emitted `currentChat` values are
non-decreasing and end at `N = nChats`; the count is exactly `1 + 2·N`
provided no chat's record-save fails before its progress callback (a chat
whose save fails contributes a single `catch` checkpoint instead of two, a
fetch/message-persist failure still contributes two). -/
theorem C4_sync_progress_checkpoints (h : Handle) (chats : List ChatSpec)
    (hready : h.isReady = true) :
    ∃ cps, syncChatsWithProgress (some h) chats = .ok (cps, ⟨true, chats.length⟩) ∧
      cps.Pairwise (fun a b => a.currentChat ≤ b.currentChat) ∧
      (cps.getLast?).map (·.currentChat) = some chats.length ∧
      ((∀ c ∈ chats, c.outcome ≠ .chatSaveFail) →
        cps.length = 1 + 2 * chats.length) := by
  refine ⟨⟨chats.length, 0, none, 0⟩ :: syncLoop chats.length 0 chats,
    ?_, ?_, ?_, ?_⟩
  · simp [syncChatsWithProgress, hready]
  · refine List.pairwise_cons.mpr ⟨fun b _ => ?_, pairwise_syncLoop _ 0 _⟩
    exact Nat.zero_le _
  · rcases eq_or_ne chats [] with rfl | hne
    · rfl
    · have hgl := getLast_syncLoop (n := chats.length) (i := 0) hne
      rw [show (⟨chats.length, 0, none, 0⟩ :: syncLoop chats.length 0 chats)
            = [⟨chats.length, 0, none, 0⟩] ++ syncLoop chats.length 0 chats
          from rfl,
        List.getLast?_append_of_ne_nil _ (syncLoop_ne_nil hne)]
      simpa using hgl
  · intro hno
    have := length_syncLoop (l := chats) chats.length 0 hno
    simp only [List.length_cons, this]
    omega

/-- Witness for C4 (amended) at a ready handle and two chats (one clean, one
with a fetch failure): 1 + 2·2 = 5 checkpoints ending at 2. -/
theorem C4_sync_progress_checkpoints_witness :
    ∃ cps, syncChatsWithProgress (some ⟨true, false⟩)
        [⟨"a", .ok 2⟩, ⟨"b", .fetchFail⟩] = .ok (cps, ⟨true, 2⟩) ∧
      cps.Pairwise (fun a b => a.currentChat ≤ b.currentChat) ∧
      (cps.getLast?).map (·.currentChat) = some 2 ∧
      ((∀ c ∈ [(⟨"a", .ok 2⟩ : ChatSpec), ⟨"b", .fetchFail⟩],
          c.outcome ≠ .chatSaveFail) → cps.length = 1 + 2 * 2) :=
  C4_sync_progress_checkpoints ⟨true, false⟩ [⟨"a", .ok 2⟩, ⟨"b", .fetchFail⟩] rfl

/-- Helper: the Boolean stored-status test of `createSession` as a
proposition. -/
theorem storedAuthBool_iff (o : Option SessionRecord) :
    (o.elim false (fun r => r.status == .ready || r.status == .authenticated))
        = true ↔
      ∃ r, o = some r ∧ (r.status = .ready ∨ r.status = .authenticated) := by
  cases o with
  | none => simp
  | some r => simp [beq_iff_eq]

/-- C5 counterexample: with a live but NOT-ready handle for `s1` and a durable
record in status `authenticated`, `createSession` returns `{success: false}`
("Session is already authenticated") — the claim allows the benign rejection
only when the live handle is ready. -/
theorem C5_counterexample_reject_without_ready_handle :
    (createSession "s1" ⟨false⟩ 7 [.initOk] c5State).2.2 =
      .ok ⟨false, "s1", "Session is already authenticated"⟩ ∧
    (findHandle c5State.registry "s1").map (·.isReady) = some false := by
  exact ⟨rfl, rfl⟩

/-- C5 (amended): `createSession` returns `{success:false}` without side
effects exactly when a live handle exists (ready or not) and the durable
record's status is `authenticated` or `ready`; in every other situation —
including the restore path (durable authenticated/ready, no live handle) and
a second call made while the durable status is still
`initializing`/`qr_generated` — the call proceeds and, with initialization
succeeding, returns `{success:true}`. -/
theorem C5_createSession_reject_conditions (st : ServiceState) (sid : String)
    (opts : CreateOpts) (now : Timestamp) :
    ((((findHandle st.registry sid).isSome = true) ∧
        ∃ r, findSession st.records sid = some r ∧
          (r.status = .ready ∨ r.status = .authenticated)) →
      (createSessionGo sid opts now [.initOk] st 0).1 = [] ∧
      (createSessionGo sid opts now [.initOk] st 0).2.1 = st ∧
      ∃ msg, (createSessionGo sid opts now [.initOk] st 0).2.2 =
        .ok ⟨false, sid, msg⟩) ∧
    ((¬ (((findHandle st.registry sid).isSome = true) ∧
        ∃ r, findSession st.records sid = some r ∧
          (r.status = .ready ∨ r.status = .authenticated))) →
      (createSessionGo sid opts now [.initOk] st 0).2.2 =
        .ok ⟨true, sid, "Session created successfully"⟩) := by
  constructor
  · rintro ⟨hh, hex⟩
    have hA : (findSession st.records sid).elim false
        (fun r => r.status == .ready || r.status == .authenticated) = true :=
      (storedAuthBool_iff _).mpr hex
    rcases hhv : findHandle st.registry sid with _ | hdl
    · rw [hhv] at hh
      simp at hh
    · by_cases hr : hdl.isReady
      · refine ⟨?_, ?_, ?_⟩ <;>
          simp [createSessionGo, createPrelude, createProceedOk, hhv, hA, hr]
      · refine ⟨?_, ?_, ?_⟩ <;>
          simp [createSessionGo, createPrelude, createProceedOk, hhv, hA, hr]
  · intro hneg
    rcases hhv : findHandle st.registry sid with _ | hdl
    · by_cases hA : (findSession st.records sid).elim false
          (fun r => r.status == .ready || r.status == .authenticated) = true
      · simp [createSessionGo, createPrelude, createProceedOk, hhv, hA]
      · simp [createSessionGo, createPrelude, createProceedOk, hhv, hA]
    · have hA : (findSession st.records sid).elim false
          (fun r => r.status == .ready || r.status == .authenticated) = false := by
        by_contra hcon
        rw [Bool.not_eq_false] at hcon
        exact hneg ⟨by rw [hhv]; rfl, (storedAuthBool_iff _).mp hcon⟩
      by_cases hr : hdl.isReady <;>
        simp [createSessionGo, createPrelude, createProceedOk, hhv, hA, hr]

/-- Witness for C5 (amended), applying the rejection direction at the
concrete state `c5State` (non-ready handle + authenticated durable record). -/
theorem C5_createSession_reject_conditions_witness :
    (createSessionGo "s1" ⟨false⟩ 7 [.initOk] c5State 0).1 = [] ∧
    (createSessionGo "s1" ⟨false⟩ 7 [.initOk] c5State 0).2.1 = c5State ∧
    (∃ msg, (createSessionGo "s1" ⟨false⟩ 7 [.initOk] c5State 0).2.2 =
      .ok ⟨false, "s1", msg⟩) :=
  (C5_createSession_reject_conditions c5State "s1" ⟨false⟩ 7).1
    ⟨by decide,
     ⟨{ sessionId := "s1", status := .authenticated, lastSeen := 0,
        qrAttempts := 0, maxQrAttempts := 3, closedAt := none,
        isDisconnected := false }, by decide, Or.inr rfl⟩⟩

/-- C6: a resource-conflict (`SingletonLock`) failure of the first
initialization attempt removes the stale session folder, drops the handle,
waits the fixed 1000 ms backoff and retries initialization exactly once with
the retry counter incremented to 1; a conflict on the retry is a hard failure
propagated to the caller.  The effect trace is exactly the listed sequence —
two `initClient` effects, at retry counts 0 and 1, and no third. -/
theorem C6_singletonlock_retried_once (st : ServiceState) (sid : String)
    (opts : CreateOpts) (now : Timestamp) (m₁ m₂ : String)
    (hreg : findHandle st.registry sid = none)
    (h1 : isSingletonLockError m₁ = true)
    (h2 : isSingletonLockError m₂ = true) :
    (createSessionGo sid opts now [.initErr m₁, .initErr m₂] st 0).1 =
      [.persistStatus sid .initializing, .initClient sid 0,
       .removeFolder sid, .deleteHandle sid, .waitMs 1000,
       .persistStatus sid .initializing, .initClient sid 1,
       .deleteHandle sid, .persistStatus sid .error] ∧
    (createSessionGo sid opts now [.initErr m₁, .initErr m₂] st 0).2.2 =
      .error ("Failed to create session: " ++ m₂) := by
  have hreg2 := findHandle_deleteHandleReg st.registry sid
  constructor <;> simp [createSessionGo, createPrelude, hreg, hreg2, h1, h2]

/-- Witness for C6 at an empty state and the literal error text
`"SingletonLock"` on both attempts. -/
theorem C6_singletonlock_retried_once_witness :
    (createSessionGo "s1" ⟨false⟩ 7
        [.initErr "SingletonLock", .initErr "SingletonLock"] ⟨[], []⟩ 0).1 =
      [.persistStatus "s1" .initializing, .initClient "s1" 0,
       .removeFolder "s1", .deleteHandle "s1", .waitMs 1000,
       .persistStatus "s1" .initializing, .initClient "s1" 1,
       .deleteHandle "s1", .persistStatus "s1" .error] ∧
    (createSessionGo "s1" ⟨false⟩ 7
        [.initErr "SingletonLock", .initErr "SingletonLock"] ⟨[], []⟩ 0).2.2 =
      .error ("Failed to create session: " ++ "SingletonLock") :=
  C6_singletonlock_retried_once ⟨[], []⟩ "s1" ⟨false⟩ 7 "SingletonLock"
    "SingletonLock" rfl (by decide) (by decide)

/-- C10: when `createSession` fails with a non-retryable initialization error
(or with a second resource conflict), it deletes the session's handle from
the in-memory registry and persists `status='error'` for that session id —
the last effect before the thrown failure — and the thrown failure is
returned to the caller. -/
theorem C10_create_failure_cleanup (st : ServiceState) (sid : String)
    (opts : CreateOpts) (now : Timestamp) (m m₁ m₂ : String)
    (hreg : findHandle st.registry sid = none)
    (hm : isSingletonLockError m = false)
    (h1 : isSingletonLockError m₁ = true)
    (h2 : isSingletonLockError m₂ = true) :
    ((∃ e, (createSessionGo sid opts now [.initErr m] st 0).2.2 = .error e) ∧
     findHandle (createSessionGo sid opts now [.initErr m] st 0).2.1.registry
        sid = none ∧
     ((findSession (createSessionGo sid opts now [.initErr m] st 0).2.1.records
        sid).map (·.status)) = some .error ∧
     (createSessionGo sid opts now [.initErr m] st 0).1.getLast? =
       some (.persistStatus sid .error)) ∧
    ((∃ e, (createSessionGo sid opts now [.initErr m₁, .initErr m₂] st 0).2.2 =
        .error e) ∧
     findHandle (createSessionGo sid opts now
        [.initErr m₁, .initErr m₂] st 0).2.1.registry sid = none ∧
     ((findSession (createSessionGo sid opts now
        [.initErr m₁, .initErr m₂] st 0).2.1.records sid).map (·.status)) =
       some .error ∧
     (createSessionGo sid opts now [.initErr m₁, .initErr m₂] st 0).1.getLast? =
       some (.persistStatus sid .error)) := by
  have hreg2 := findHandle_deleteHandleReg st.registry sid
  constructor
  · refine ⟨⟨"Failed to create session: " ++ m, ?_⟩, ?_, ?_, ?_⟩ <;>
      simp [createSessionGo, createPrelude, hreg, hreg2, hm,
        findSession_storeSessionMetadata_self, applySet,
        findHandle_deleteHandleReg]
  · refine ⟨⟨"Failed to create session: " ++ m₂, ?_⟩, ?_, ?_, ?_⟩ <;>
      simp [createSessionGo, createPrelude, hreg, hreg2, h1, h2,
        findSession_storeSessionMetadata_self, applySet,
        findHandle_deleteHandleReg]

/-- Witness for C10 at an empty state: a plain protocol error on attempt one,
and the double-conflict run. -/
theorem C10_create_failure_cleanup_witness :
    ((∃ e, (createSessionGo "s1" ⟨false⟩ 7 [.initErr "Protocol error"]
        ⟨[], []⟩ 0).2.2 = .error e) ∧
     findHandle (createSessionGo "s1" ⟨false⟩ 7 [.initErr "Protocol error"]
        ⟨[], []⟩ 0).2.1.registry "s1" = none ∧
     ((findSession (createSessionGo "s1" ⟨false⟩ 7 [.initErr "Protocol error"]
        ⟨[], []⟩ 0).2.1.records "s1").map (·.status)) = some .error ∧
     (createSessionGo "s1" ⟨false⟩ 7 [.initErr "Protocol error"]
        ⟨[], []⟩ 0).1.getLast? = some (.persistStatus "s1" .error)) ∧
    ((∃ e, (createSessionGo "s1" ⟨false⟩ 7
        [.initErr "SingletonLock", .initErr "SingletonLock"]
        ⟨[], []⟩ 0).2.2 = .error e) ∧
     findHandle (createSessionGo "s1" ⟨false⟩ 7
        [.initErr "SingletonLock", .initErr "SingletonLock"]
        ⟨[], []⟩ 0).2.1.registry "s1" = none ∧
     ((findSession (createSessionGo "s1" ⟨false⟩ 7
        [.initErr "SingletonLock", .initErr "SingletonLock"]
        ⟨[], []⟩ 0).2.1.records "s1").map (·.status)) = some .error ∧
     (createSessionGo "s1" ⟨false⟩ 7
        [.initErr "SingletonLock", .initErr "SingletonLock"]
        ⟨[], []⟩ 0).1.getLast? = some (.persistStatus "s1" .error)) :=
  C10_create_failure_cleanup ⟨[], []⟩ "s1" ⟨false⟩ 7 "Protocol error"
    "SingletonLock" "SingletonLock" rfl (by decide) (by decide) (by decide)

/-- Helper: the `pre('save')` hook does implement the claimed increment on a
save whose modified status is `qr_generated`. -/
theorem preSave_increments_qrAttempts_on_qr (now : Timestamp)
    (doc : SessionRecord) (h : doc.status = .qr_generated) :
    (preSave now true doc).qrAttempts = doc.qrAttempts + 1 := by
  simp [preSave, h]
  split <;> rfl

/-- Helper: the `pre('save')` hook does implement the claimed auto-close on a
document save once the incremented attempts reach `maxQrAttempts` — the
behaviour the service never triggers because it writes via `updateOne`. -/
theorem preSave_hook_would_close_at_budget :
    preSave 9 true
      { sessionId := "s1", status := .qr_generated, lastSeen := 8,
        qrAttempts := 2, maxQrAttempts := 3, closedAt := none,
        isDisconnected := false } =
      { sessionId := "s1", status := .closed, lastSeen := 9, qrAttempts := 3,
        maxQrAttempts := 3, closedAt := some 9, isDisconnected := false } := by
  decide

/-- C1 (code bug): the qrAttempts/auto-close invariant lives exclusively in
the schema's `pre('save')` document middleware, but every status write of the
service — the QR-event path and all other `storeSessionMetadata` calls — is a
Mongoose `updateOne`, a query-path write on which document middleware does
not run.  Evaluating the embedded code: five consecutive `qr` events on a
fresh session leave `qrAttempts = 0` and `status = qr_generated`, although
`MAX_QR_ATTEMPTS ≤ 5`, so no write incremented the counter and the session
was never forced closed. -/
theorem C1_qr_budget_not_enforced_on_status_writes :
    findSession c1AfterFiveQr "s1" =
      some { sessionId := "s1", status := .qr_generated, lastSeen := 5,
             qrAttempts := 0, maxQrAttempts := MAX_QR_ATTEMPTS,
             closedAt := none, isDisconnected := false } ∧
    MAX_QR_ATTEMPTS ≤ 5 := by
  exact ⟨rfl, by decide⟩

end RecordsWs
